import Mathlib

/-!
Verification of the feed-scanning pipeline in `src/scanner.py`
(`ai-democracy-scanner`).

The development shallowly embeds the pieces of the program the claims
are about:

* `Json` — the values produced by `json.loads` and stored in
  `signals.json`; numbers are kept as a decimal mantissa/exponent pair,
  so no floating point is involved.
* `dictGet` / `dictInsert` / `dictMerge` — CPython `dict` lookup,
  assignment and `\x7b**a, **b\x7d` merge semantics on string-keyed
  dicts (association lists; every dict the program builds has distinct
  keys, and `dictInsert` keeps the position of an overridden key, as
  CPython does).
* `Json.parse` — a fuel-based JSON reader standing in for `json.loads`:
  it strips surrounding whitespace, reads one JSON value and rejects
  trailing text, exactly the failure condition that raises
  `json.JSONDecodeError` in the program.
* `fetch_articles`, `classify`, `save`, `main` — direct translations of
  the functions of the same names in `src/scanner.py`; external effects
  (feed retrieval, the model call, the stored document) are passed in as
  explicit inputs, and uncaught Python exceptions are modelled with
  `Except`.
* `merge` — the url-deduplicating core of `save` (lines 212-214 of the
  source) on an abstract `Signal` record, used by the store claims.
-/

namespace Scanner

/-- A JSON value, as produced by `json.loads`.  A finite number literal
is kept as `num m e`, denoting `m * 10 ^ e`; the program never computes
with the numbers it parses, so this lossless decimal form avoids
floating point.  CPython additionally accepts the non-standard constant
tokens `NaN`, `Infinity` and `-Infinity` by default, loading them as
non-finite floats, kept here as `nan` and `infinity`.  (Python's float
NaN compares unequal to itself; the model's structural equality is only
ever applied to url values, which are strings in every theorem of this
development, so that quirk is never exercised.) -/
inductive Json where
  | null
  | bool (b : Bool)
  | num (m : Int) (e : Int)
  | nan
  | infinity (neg : Bool)
  | str (s : String)
  | arr (elems : List Json)
  | obj (fields : List (String × Json))
deriving Repr

mutual

def Json.decEq : (a b : Json) → Decidable (a = b)
  | .null, .null => .isTrue rfl
  | .bool a, .bool b =>
    if h : a = b then .isTrue (by rw [h]) else .isFalse (by intro hc; cases hc; exact h rfl)
  | .num m1 e1, .num m2 e2 =>
    if h1 : m1 = m2 then
      if h2 : e1 = e2 then .isTrue (by rw [h1, h2])
      else .isFalse (by intro hc; cases hc; exact h2 rfl)
    else .isFalse (by intro hc; cases hc; exact h1 rfl)
  | .nan, .nan => .isTrue rfl
  | .infinity a, .infinity b =>
    if h : a = b then .isTrue (by rw [h]) else .isFalse (by intro hc; cases hc; exact h rfl)
  | .str a, .str b =>
    if h : a = b then .isTrue (by rw [h]) else .isFalse (by intro hc; cases hc; exact h rfl)
  | .arr xs, .arr ys =>
    match Json.decEqList xs ys with
    | .isTrue h => .isTrue (by rw [h])
    | .isFalse h => .isFalse (by intro hc; cases hc; exact h rfl)
  | .obj xs, .obj ys =>
    match Json.decEqFields xs ys with
    | .isTrue h => .isTrue (by rw [h])
    | .isFalse h => .isFalse (by intro hc; cases hc; exact h rfl)
  | .null, .bool _ | .null, .num _ _ | .null, .nan | .null, .infinity _
  | .null, .str _ | .null, .arr _ | .null, .obj _
  | .bool _, .null | .bool _, .num _ _ | .bool _, .nan | .bool _, .infinity _
  | .bool _, .str _ | .bool _, .arr _ | .bool _, .obj _
  | .num _ _, .null | .num _ _, .bool _ | .num _ _, .nan | .num _ _, .infinity _
  | .num _ _, .str _ | .num _ _, .arr _ | .num _ _, .obj _
  | .nan, .null | .nan, .bool _ | .nan, .num _ _ | .nan, .infinity _
  | .nan, .str _ | .nan, .arr _ | .nan, .obj _
  | .infinity _, .null | .infinity _, .bool _ | .infinity _, .num _ _ | .infinity _, .nan
  | .infinity _, .str _ | .infinity _, .arr _ | .infinity _, .obj _
  | .str _, .null | .str _, .bool _ | .str _, .num _ _ | .str _, .nan
  | .str _, .infinity _ | .str _, .arr _ | .str _, .obj _
  | .arr _, .null | .arr _, .bool _ | .arr _, .num _ _ | .arr _, .nan
  | .arr _, .infinity _ | .arr _, .str _ | .arr _, .obj _
  | .obj _, .null | .obj _, .bool _ | .obj _, .num _ _ | .obj _, .nan
  | .obj _, .infinity _ | .obj _, .str _ | .obj _, .arr _ =>
    .isFalse (by intro hc; exact Json.noConfusion hc)

def Json.decEqList : (xs ys : List Json) → Decidable (xs = ys)
  | [], [] => .isTrue rfl
  | [], _ :: _ => .isFalse (by intro hc; exact List.noConfusion hc)
  | _ :: _, [] => .isFalse (by intro hc; exact List.noConfusion hc)
  | x :: xs, y :: ys =>
    match Json.decEq x y, Json.decEqList xs ys with
    | .isTrue h1, .isTrue h2 => .isTrue (by rw [h1, h2])
    | .isFalse h1, _ => .isFalse (by intro hc; cases hc; exact h1 rfl)
    | _, .isFalse h2 => .isFalse (by intro hc; cases hc; exact h2 rfl)

def Json.decEqFields : (xs ys : List (String × Json)) → Decidable (xs = ys)
  | [], [] => .isTrue rfl
  | [], _ :: _ => .isFalse (by intro hc; exact List.noConfusion hc)
  | _ :: _, [] => .isFalse (by intro hc; exact List.noConfusion hc)
  | (k1, v1) :: xs, (k2, v2) :: ys =>
    match Json.decEq v1 v2, Json.decEqFields xs ys with
    | .isTrue h2, .isTrue h3 =>
      if h1 : k1 = k2 then .isTrue (by rw [h1, h2, h3])
      else .isFalse (by intro hc; cases hc; exact h1 rfl)
    | .isFalse h2, _ => .isFalse (by intro hc; cases hc; exact h2 rfl)
    | _, .isFalse h3 => .isFalse (by intro hc; cases hc; exact h3 rfl)

end

instance : DecidableEq Json := Json.decEq

/-- Decidable equality of fallible results, for evaluating runs on
concrete inputs. -/
instance {ε α : Type} [DecidableEq ε] [DecidableEq α] : DecidableEq (Except ε α) :=
  fun a b =>
    match a, b with
    | .ok x, .ok y =>
      if h : x = y then .isTrue (by rw [h]) else .isFalse (by intro hc; cases hc; exact h rfl)
    | .error x, .error y =>
      if h : x = y then .isTrue (by rw [h]) else .isFalse (by intro hc; cases hc; exact h rfl)
    | .ok _, .error _ => .isFalse (by intro hc; exact Except.noConfusion hc)
    | .error _, .ok _ => .isFalse (by intro hc; exact Except.noConfusion hc)

/-- A Python `dict` with string keys, as an association list.  Every
dict the program manipulates has pairwise-distinct keys (literals with
distinct keys, `json.loads` output, and merges of such dicts). -/
abbrev Dict := List (String × Json)

/-- Python `d[k]` lookup (first occurrence; dicts built by the program
have unique keys). -/
def dictGet : Dict → String → Option Json
  | [], _ => none
  | (k1, v1) :: rest, k => if k1 = k then some v1 else dictGet rest k

/-- Python `d[k] = v`: an existing key keeps its position and gets the
new value, a new key is appended (CPython insertion-order semantics). -/
def dictInsert : Dict → String → Json → Dict
  | [], k, v => [(k, v)]
  | (k1, v1) :: rest, k, v =>
    if k1 = k then (k, v) :: rest else (k1, v1) :: dictInsert rest k v

/-- Python `\x7b**a, **b\x7d`: start from `a` and assign every binding
of `b` in order, later keys overriding earlier values in place. -/
def dictMerge (a b : Dict) : Dict :=
  b.foldl (fun acc kv => dictInsert acc kv.1 kv.2) a

/-- The Python runtime type name of a parsed JSON value, used in the
`TypeError` messages the interpreter raises.  A number lexed without a
fractional or exponent part loads as `int`, otherwise as `float`;
`num m e` records the scaled form, where `e = 0` corresponds to the
integer case. -/
def pyTypeName : Json → String
  | .null => "NoneType"
  | .bool _ => "bool"
  | .num _ e => if e = 0 then "int" else "float"
  | .nan => "float"
  | .infinity _ => "float"
  | .str _ => "str"
  | .arr _ => "list"
  | .obj _ => "dict"

/-! ### A JSON reader standing in for `json.loads` -/

/-- JSON insignificant whitespace. -/
def jsonWs (c : Char) : Bool :=
  c = ' ' || c = '\t' || c = '\n' || c = '\r'

/-- Drop leading JSON whitespace. -/
def skipWs : List Char → List Char
  | [] => []
  | c :: cs => if jsonWs c then skipWs cs else c :: cs

/-- A character Python's no-argument `str.strip()` removes: exactly
those with `str.isspace()` true — the ASCII whitespace and separator
controls, NEL, NBSP, and the Unicode space separators. -/
def pyWs (c : Char) : Bool :=
  c = ' ' || ('\x09' ≤ c && c ≤ '\x0d') || ('\x1c' ≤ c && c ≤ '\x1f') ||
  c = '\x85' || c = '\xa0' || c = '\u1680' ||
  ('\u2000' ≤ c && c ≤ '\u200a') ||
  c = '\u2028' || c = '\u2029' || c = '\u202f' || c = '\u205f' || c = '\u3000'

/-- Python `s.strip()`: drop leading and trailing whitespace. -/
def pyStrip (s : String) : String :=
  String.mk (((s.toList.dropWhile pyWs).reverse.dropWhile pyWs).reverse)

/-- Python `s[:n]`: the first `n` characters (code points). -/
def pyTake (s : String) (n : Nat) : String :=
  String.mk (s.toList.take n)

/-- Hexadecimal digit value, for `\uXXXX` escapes. -/
def hexVal (c : Char) : Option Nat :=
  if '0' ≤ c ∧ c ≤ '9' then some (c.toNat - 48)
  else if 'a' ≤ c ∧ c ≤ 'f' then some (c.toNat - 87)
  else if 'A' ≤ c ∧ c ≤ 'F' then some (c.toNat - 55)
  else none

/-- Value of a list of decimal digits. -/
def digitsToNat (ds : List Char) : Nat :=
  ds.foldl (fun acc c => acc * 10 + (c.toNat - 48)) 0

/-- Body of a JSON string after the opening quote: handles the escape
sequences `json.loads` accepts and rejects raw control characters.  The
accumulator holds the decoded characters in reverse. -/
def parseStringBody : Nat → List Char → List Char → Option (String × List Char)
  | 0, _, _ => none
  | _ + 1, [], _ => none
  | fuel + 1, c :: cs, acc =>
    if c = '"' then some (String.mk acc.reverse, cs)
    else if c = '\\' then
      match cs with
      | [] => none
      | e :: cs2 =>
        if e = '"' then parseStringBody fuel cs2 ('"' :: acc)
        else if e = '\\' then parseStringBody fuel cs2 ('\\' :: acc)
        else if e = '/' then parseStringBody fuel cs2 ('/' :: acc)
        else if e = 'b' then parseStringBody fuel cs2 ('\x08' :: acc)
        else if e = 'f' then parseStringBody fuel cs2 ('\x0c' :: acc)
        else if e = 'n' then parseStringBody fuel cs2 ('\n' :: acc)
        else if e = 'r' then parseStringBody fuel cs2 ('\x0d' :: acc)
        else if e = 't' then parseStringBody fuel cs2 ('\t' :: acc)
        else if e = 'u' then
          match cs2 with
          | h1 :: h2 :: h3 :: h4 :: cs3 =>
            match hexVal h1, hexVal h2, hexVal h3, hexVal h4 with
            | some a, some b, some c3, some d =>
              parseStringBody fuel cs3 (Char.ofNat (((a * 16 + b) * 16 + c3) * 16 + d) :: acc)
            | _, _, _, _ => none
          | _ => none
        else none
    else if c.toNat < 32 then none
    else parseStringBody fuel cs (c :: acc)

/-- A JSON number literal: `-? (0 | [1-9][0-9]*) (. [0-9]+)? ([eE][+-]?[0-9]+)?`,
read into the `num mantissa exponent` form. -/
def parseNumber (cs : List Char) : Option (Json × List Char) :=
  let sign : Bool × List Char :=
    match cs with
    | '-' :: r => (true, r)
    | _ => (false, cs)
  let neg := sign.1
  let cs1 := sign.2
  let intSpan := cs1.span Char.isDigit
  let ds := intSpan.1
  let r1 := intSpan.2
  if ds.isEmpty then none
  else if ds.length > 1 && ds.headD '0' = '0' then none
  else
    let m0 : Int := (digitsToNat ds : Nat)
    let afterFrac : Option (Int × Int × List Char) :=
      match r1 with
      | '.' :: r =>
        let fracSpan := r.span Char.isDigit
        if fracSpan.1.isEmpty then none
        else some (m0 * ((10 : Int) ^ fracSpan.1.length) + (digitsToNat fracSpan.1 : Nat),
                   -(fracSpan.1.length : Int), fracSpan.2)
      | _ => some (m0, 0, r1)
    match afterFrac with
    | none => none
    | some (m, e, r2) =>
      let afterExp : Option (Int × List Char) :=
        match r2 with
        | c :: r3 =>
          if c = 'e' || c = 'E' then
            let signedTail : Int × List Char :=
              match r3 with
              | '+' :: rr => (1, rr)
              | '-' :: rr => (-1, rr)
              | _ => (1, r3)
            let expSpan := signedTail.2.span Char.isDigit
            if expSpan.1.isEmpty then none
            else some (signedTail.1 * (digitsToNat expSpan.1 : Nat), expSpan.2)
          else some (0, r2)
        | [] => some (0, r2)
      match afterExp with
      | none => none
      | some (ee, rr) =>
        some (.num (if neg then -m else m) (e + ee), rr)

mutual

/-- One JSON value, leading whitespace allowed; returns the value and
the unconsumed input. -/
def parseValue : Nat → List Char → Option (Json × List Char)
  | 0, _ => none
  | fuel + 1, cs =>
    match skipWs cs with
    | 'n' :: 'u' :: 'l' :: 'l' :: r => some (.null, r)
    | 't' :: 'r' :: 'u' :: 'e' :: r => some (.bool true, r)
    | 'f' :: 'a' :: 'l' :: 's' :: 'e' :: r => some (.bool false, r)
    | 'N' :: 'a' :: 'N' :: r => some (.nan, r)
    | 'I' :: 'n' :: 'f' :: 'i' :: 'n' :: 'i' :: 't' :: 'y' :: r => some (.infinity false, r)
    | '-' :: 'I' :: 'n' :: 'f' :: 'i' :: 'n' :: 'i' :: 't' :: 'y' :: r =>
      some (.infinity true, r)
    | '"' :: r =>
      match parseStringBody (r.length + 1) r [] with
      | some (s, r1) => some (.str s, r1)
      | none => none
    | '\x5b' :: r =>
      match skipWs r with
      | '\x5d' :: r2 => some (.arr [], r2)
      | r2 =>
        match parseElems fuel r2 with
        | some (xs, r3) => some (.arr xs, r3)
        | none => none
    | '\x7b' :: r =>
      match skipWs r with
      | '\x7d' :: r2 => some (.obj [], r2)
      | r2 =>
        match parseMembers fuel [] r2 with
        | some (fs, r3) => some (.obj fs, r3)
        | none => none
    | cs2 => parseNumber cs2

/-- The elements of a non-empty JSON array, up to and including the
closing bracket. -/
def parseElems : Nat → List Char → Option (List Json × List Char)
  | 0, _ => none
  | fuel + 1, cs =>
    match parseValue fuel cs with
    | none => none
    | some (v, r) =>
      match skipWs r with
      | ',' :: r2 =>
        match parseElems fuel r2 with
        | some (vs, r3) => some (v :: vs, r3)
        | none => none
      | '\x5d' :: r2 => some ([v], r2)
      | _ => none

/-- The members of a non-empty JSON object, up to and including the
closing brace; bindings are entered into the accumulator dict in order,
so a duplicate key keeps its first position with its last value, as
`json.loads` does. -/
def parseMembers : Nat → Dict → List Char → Option (Dict × List Char)
  | 0, _, _ => none
  | fuel + 1, acc, cs =>
    match skipWs cs with
    | '"' :: r =>
      match parseStringBody (r.length + 1) r [] with
      | none => none
      | some (k, r1) =>
        match skipWs r1 with
        | ':' :: r2 =>
          match parseValue fuel r2 with
          | none => none
          | some (v, r3) =>
            match skipWs r3 with
            | ',' :: r4 => parseMembers fuel (dictInsert acc k v) r4
            | '\x7d' :: r4 => some (dictInsert acc k v, r4)
            | _ => none
        | _ => none
    | _ => none

end

/-- `json.loads`: one JSON value with nothing but whitespace around it;
any other input raises `json.JSONDecodeError`, modelled as `none`. -/
def Json.parse (s : String) : Option Json :=
  let cs := s.toList
  match parseValue (cs.length + 1) cs with
  | some (v, r) => if (skipWs r).isEmpty then some v else none
  | none => none

/-! ### The program: settings and data model -/

/-- `ARTICLES_PER_FEED = 20` (line 80 of the source). -/
def ARTICLES_PER_FEED : Nat := 20

/-- The five-value category enum the classification prompt mandates for
`primary_category` (line 150 of the source). -/
def CATEGORY_ENUM : List String :=
  ["STRENGTHENS", "NEW_DEMOCRACY", "WEAKENS", "COLLAPSE", "AMBIGUOUS"]

/-- One feed entry as `feedparser` hands it over: each of the four
fields the program reads may be missing (`entry.get(..., "")`). -/
structure Entry where
  title : Option String
  summary : Option String
  link : Option String
  published : Option String
deriving DecidableEq, Repr

/-- The outcome of `feedparser.parse(url)` together with the entry loop
for one feed: either the body of the `try` raises (network failure,
malformed document, ...) — modelled by `failed` with the message of the
exception — or it yields the feed's entry list. -/
inductive FeedResult where
  | failed (err : String)
  | parsed (entries : List Entry)
deriving DecidableEq, Repr

/-- The candidate-article dict built for one entry (lines 169-175 of
the source): missing fields default to `""`, `title` is stripped,
`summary` is cut to 800 characters and then stripped. -/
def toArticle (source : String) (e : Entry) : Dict :=
  [("source", .str source),
   ("title", .str (pyStrip (e.title.getD ""))),
   ("summary", .str (pyStrip (pyTake (e.summary.getD "") 800))),
   ("url", .str (e.link.getD "")),
   ("published", .str (e.published.getD ""))]

/-- One iteration of the feed loop of `fetch_articles`: a feed whose
`try` body raised appends nothing, otherwise up to `ARTICLES_PER_FEED`
candidate dicts are appended in entry order. -/
def fetchStep (articles : List Dict) (sf : String × FeedResult) : List Dict :=
  match sf.2 with
  | .failed _ => articles
  | .parsed entries =>
    articles ++ (entries.take ARTICLES_PER_FEED).map (toArticle sf.1)

/-- `fetch_articles` (lines 163-179): one pass over the configured
feeds in order, starting from the empty accumulator. -/
def fetch_articles (feeds : List (String × FeedResult)) : List Dict :=
  feeds.foldl fetchStep []

/-- What the classification call `client.messages.create(...)` comes to
for one article: either some exception is raised before the response
text is in hand (timeout, non-success status, quota error, empty
content, ...) — `failure` carries `str(e)` — or the raw text
`response.content[0].text` is obtained. -/
inductive ApiOutcome where
  | failure (msg : String)
  | success (raw : String)
deriving DecidableEq, Repr

/-- The `TypeError` message CPython raises for `\x7b**article, **result\x7d`
when `result` is not a mapping. -/
def mappingTypeErrorMsg (j : Json) : String :=
  "'" ++ pyTypeName j ++ "' object is not a mapping"

/-- `classify` (lines 182-202), with the network call abstracted into
`outcome` and the timestamp `datetime.utcnow().isoformat()` into `ts`:

* raw text obtained and `json.loads(raw.strip())` yields an object —
  `return \x7b**article, **result, "scanned_at": ts\x7d`;
* raw text obtained, `json.loads` succeeds but yields a non-mapping —
  the dict-merge raises `TypeError`, caught by the generic
  `except Exception` handler, so `error = str(e)`;
* raw text obtained but `json.loads` raises `JSONDecodeError` —
  `error = "json_parse_error"`;
* the call itself failed — `error = str(e)`.

Every branch stamps `relevant`/`error` over a copy of the article and
adds `scanned_at`. -/
def classify (article : Dict) (outcome : ApiOutcome) (ts : String) : Dict :=
  match outcome with
  | .failure msg =>
    dictMerge article
      [("relevant", .bool false), ("error", .str msg), ("scanned_at", .str ts)]
  | .success raw =>
    match Json.parse (pyStrip raw) with
    | some (.obj fields) =>
      dictMerge (dictMerge article fields) [("scanned_at", .str ts)]
    | some j =>
      dictMerge article
        [("relevant", .bool false), ("error", .str (mappingTypeErrorMsg j)),
         ("scanned_at", .str ts)]
    | none =>
      dictMerge article
        [("relevant", .bool false), ("error", .str "json_parse_error"),
         ("scanned_at", .str ts)]

/-- The relevance filter `c.get("relevant") is True` (line 238): the
value stored under `"relevant"` must be the boolean `True` itself, not
merely a truthy or `==`-equal value. -/
def isRelevant (c : Dict) : Bool :=
  match dictGet c "relevant" with
  | some (.bool true) => true
  | _ => false

/-- The classification loop of `main` (lines 233-236): one `classify`
call per fetched article, in order; `responses` gives the outcome of
the i-th call (0-based) and `ts` the stamped timestamp. -/
def classifyAll (articles : List Dict) (responses : Nat → ApiOutcome) (ts : String) :
    List Dict :=
  articles.enum.map (fun p => classify p.2 (responses p.1) ts)

/-- `signals = [c for c in classified if c.get("relevant") is True]`
(line 238). -/
def relevantOnly (classified : List Dict) : List Dict :=
  classified.filter isRelevant

/-! ### The store: `save` and its failure modes -/

/-- An uncaught Python exception escaping `save`. -/
inductive PyErr where
  | typeError (msg : String)
  | keyError (key : String)
deriving DecidableEq, Repr

/-- Python iteration over a loaded JSON value, as the set comprehension
`\x7bs["url"] for s in existing\x7d` performs it: lists yield their
elements, dicts their keys, strings their characters; other values
raise `TypeError`. -/
def pyIter : Json → Except PyErr (List Json)
  | .arr xs => .ok xs
  | .obj fs => .ok (fs.map (fun p => .str p.1))
  | .str s => .ok (s.toList.map (fun c => .str (String.mk [c])))
  | j => .error (.typeError ("'" ++ pyTypeName j ++ "' object is not iterable"))

/-- Python subscription `s["url"]` on a loaded JSON value: only a dict
answers; a missing key raises `KeyError` and any other value raises
`TypeError`. -/
def pySubscript (j : Json) (k : String) : Except PyErr Json :=
  match j with
  | .obj fs =>
    match dictGet fs k with
    | some v => .ok v
    | none => .error (.keyError k)
  | .str _ => .error (.typeError "string indices must be integers")
  | .arr _ => .error (.typeError "list indices must be integers or slices, not str")
  | j => .error (.typeError ("'" ++ pyTypeName j ++ "' object is not subscriptable"))

/-- Python `existing + new_signals` where `new_signals` is a list:
only a list concatenates; any other loaded value raises `TypeError`. -/
def pyAddList (j : Json) (ys : List Json) : Except PyErr (List Json) :=
  match j with
  | .arr xs => .ok (xs ++ ys)
  | .str _ => .error (.typeError "can only concatenate str (not \x22list\x22) to str")
  | j => .error (.typeError ("unsupported operand type(s) for +: '" ++ pyTypeName j ++ "' and 'list'"))

/-- Lines 206-210 of `save`: read and decode the stored document.
`doc = none` models a missing file (`FileNotFoundError`) and an
undecodable document raises `json.JSONDecodeError`; both are caught and
replaced by `[]`.  Any decodable document is taken as is. -/
def loadExisting (doc : Option String) : Json :=
  match doc with
  | none => .arr []
  | some text =>
    match Json.parse text with
    | none => .arr []
    | some j => j

/-- `existing_urls = \x7bs["url"] for s in existing\x7d` (line 212),
after the iteration of `existing` already succeeded: subscript each
element in order, the first failure raising.  The Python set is
modelled by the list of its elements; only membership in it is ever
used. -/
def urlSet : List Json → Except PyErr (List Json)
  | [] => .ok []
  | s :: rest => do
    let u ← pySubscript s "url"
    let us ← urlSet rest
    .ok (u :: us)

/-- `new_signals = [s for s in signals if s["url"] not in existing_urls]`
(line 213). -/
def filterNew (existingUrls : List Json) : List Dict → Except PyErr (List Dict)
  | [] => .ok []
  | s :: rest => do
    let u ← pySubscript (.obj s) "url"
    let tail ← filterNew existingUrls rest
    .ok (if existingUrls.contains u then tail else s :: tail)

/-- What `save` leaves behind: the document written back, the signals
that were new this run, and the two counts it reports. -/
structure SaveResult where
  combined : List Json
  newSignals : List Dict
  addedCount : Nat
  totalCount : Nat
deriving DecidableEq, Repr

/-- `save(signals)` (lines 205-219): load the prior document (absent or
undecodable ⇒ `[]`), collect the url of every existing entry, keep the
incoming signals whose url is not among them, and write
`existing + new_signals` back.  Each step may raise an uncaught
exception when the loaded document is decodable JSON of an unexpected
shape. -/
def save (doc : Option String) (signals : List Dict) : Except PyErr SaveResult := do
  let existing := loadExisting doc
  let elems ← pyIter existing
  let existingUrls ← urlSet elems
  let newSignals ← filterNew existingUrls signals
  let combined ← pyAddList existing (newSignals.map Json.obj)
  .ok ⟨combined, newSignals, newSignals.length, combined.length⟩

/-! ### The orchestrator -/

/-- How a run of `main` can terminate abnormally. -/
inductive RunError where
  | missingCredential
  | persistence (e : PyErr)
deriving DecidableEq, Repr

/-- The observable outcome of a successful run: the counts `main`
prints and what `save` persisted. -/
structure RunReport where
  articlesFetched : Nat
  relevantCount : Nat
  stored : SaveResult
deriving DecidableEq, Repr

/-- Python truthiness of `os.environ.get("ANTHROPIC_API_KEY")`: an
unset variable gives `None` and both `None` and `""` are falsy. -/
def pyTruthy : Option String → Bool
  | none => false
  | some s => !s.isEmpty

/-- `main` (lines 222-241), with every external effect passed in:
`apiKey` is the environment lookup, `feeds` the per-feed fetch
outcomes, `responses` the per-article classification outcomes, `doc`
the stored document and `ts` the stamped timestamp.  The credential
check happens before anything else; afterwards the run only raises if
`save` does. -/
def main (apiKey : Option String) (feeds : List (String × FeedResult))
    (responses : Nat → ApiOutcome) (doc : Option String) (ts : String) :
    Except RunError RunReport :=
  if !pyTruthy apiKey then .error .missingCredential
  else
    let articles := fetch_articles feeds
    let signals := relevantOnly (classifyAll articles responses ts)
    match save doc signals with
    | .ok r => .ok ⟨articles.length, signals.length, r⟩
    | .error e => .error (.persistence e)

/-! ### The url-deduplicating merge of the store -/

/-- A persisted signal viewed through its identity key: the `url` the
store dedups on, and the rest of the record. -/
structure Signal where
  url : String
  content : Json
deriving DecidableEq, Repr

/-- Lines 212-214 of `save` on this view: the urls already present in
`existing`, the incoming signals whose url is not among them, and the
concatenation — `merge(existing, incoming)` of the specification. -/
def merge (existing incoming : List Signal) : List Signal :=
  let existing_urls := existing.map Signal.url
  let new_signals := incoming.filter (fun s => !existing_urls.contains s.url)
  existing ++ new_signals

/-- The merge rule exactly as §4.4 of the specification words it:
compute the set of url values already present in `existing`, filter
`incoming` to the signals whose url is absent from that set, and append
the filtered list to `existing` (spec-side characterization, to be
compared with `merge`). -/
def mergeSpec (existing incoming : List Signal) : List Signal :=
  let urlsPresent : Finset String := (existing.map Signal.url).toFinset
  existing ++ incoming.filter (fun s => decide (s.url ∉ urlsPresent))

theorem dictGet_insert_self (d : Dict) (k : String) (v : Json) :
    dictGet (dictInsert d k v) k = some v := by
  induction d with
  | nil => simp [dictInsert, dictGet]
  | cons p rest ih =>
    obtain ⟨k1, v1⟩ := p
    by_cases h : k1 = k
    · simp [dictInsert, h, dictGet]
    · simp [dictInsert, h, dictGet, ih]

theorem dictGet_insert_other (d : Dict) {k k2 : String} (v : Json) (h : k ≠ k2) :
    dictGet (dictInsert d k v) k2 = dictGet d k2 := by
  induction d with
  | nil => simp [dictInsert, dictGet, h]
  | cons p rest ih =>
    obtain ⟨k1, v1⟩ := p
    by_cases h1 : k1 = k
    · simp [dictInsert, h1, dictGet, h]
    · simp [dictInsert, h1, dictGet, ih]

theorem dictMerge_cons (a : Dict) (k : String) (v : Json) (b : Dict) :
    dictMerge a ((k, v) :: b) = dictMerge (dictInsert a k v) b := by
  simp [dictMerge]

theorem dictGet_merge_not_mem (a : Dict) {b : Dict} {k : String}
    (h : k ∉ b.map Prod.fst) :
    dictGet (dictMerge a b) k = dictGet a k := by
  induction b generalizing a with
  | nil => simp [dictMerge]
  | cons p rest ih =>
    obtain ⟨k1, v1⟩ := p
    simp only [List.map_cons, List.mem_cons] at h
    push_neg at h
    rw [dictMerge_cons, ih (dictInsert a k1 v1) h.2,
        dictGet_insert_other _ _ (fun he => h.1 he.symm)]

theorem dictGet_merge_nodup {b : Dict} (a : Dict) {k : String} {v : Json}
    (hb : (b.map Prod.fst).Nodup) (hv : dictGet b k = some v) :
    dictGet (dictMerge a b) k = some v := by
  induction b generalizing a with
  | nil => simp [dictGet] at hv
  | cons p rest ih =>
    obtain ⟨k1, v1⟩ := p
    simp only [List.map_cons, List.nodup_cons] at hb
    by_cases h1 : k1 = k
    · subst h1
      have hv1 : v1 = v := by simpa [dictGet] using hv
      subst hv1
      rw [dictMerge_cons, dictGet_merge_not_mem _ hb.1, dictGet_insert_self]
    · have hv1 : dictGet rest k = some v := by simpa [dictGet, h1] using hv
      rw [dictMerge_cons]
      exact ih (dictInsert a k1 v1) hb.2 hv1

/-- Unfolding of the parse-success branch of `classify`. -/
theorem classify_success {raw : String} {fields : Dict}
    (article : Dict) (ts : String)
    (h : Json.parse (pyStrip raw) = some (.obj fields)) :
    classify article (.success raw) ts =
      dictMerge (dictMerge article fields) [("scanned_at", .str ts)] := by
  simp [classify, h]

/-- Unfolding of the parse-failure branch of `classify`. -/
theorem classify_parse_failure {raw : String} (article : Dict) (ts : String)
    (h : Json.parse (pyStrip raw) = none) :
    classify article (.success raw) ts =
      dictMerge article
        [("relevant", .bool false), ("error", .str "json_parse_error"),
         ("scanned_at", .str ts)] := by
  simp [classify, h]

/-- Lookups on a failure signal: the three stamped keys read back the
stamped values. -/
theorem failSignal_get (article : Dict) (msg ts : String) :
    dictGet (dictMerge article
      [("relevant", Json.bool false), ("error", Json.str msg),
       ("scanned_at", Json.str ts)]) "relevant" = some (Json.bool false) ∧
    dictGet (dictMerge article
      [("relevant", Json.bool false), ("error", Json.str msg),
       ("scanned_at", Json.str ts)]) "error" = some (Json.str msg) ∧
    dictGet (dictMerge article
      [("relevant", Json.bool false), ("error", Json.str msg),
       ("scanned_at", Json.str ts)]) "scanned_at" = some (Json.str ts) := by
  have e3 : dictMerge article
      [("relevant", Json.bool false), ("error", Json.str msg),
       ("scanned_at", Json.str ts)] =
      dictInsert (dictInsert (dictInsert article "relevant" (Json.bool false))
        "error" (Json.str msg)) "scanned_at" (Json.str ts) := rfl
  refine ⟨?_, ?_, ?_⟩
  · rw [e3, dictGet_insert_other _ _ (by decide), dictGet_insert_other _ _ (by decide),
        dictGet_insert_self]
  · rw [e3, dictGet_insert_other _ _ (by decide), dictGet_insert_self]
  · rw [e3, dictGet_insert_self]

/-- Lookups on a failure signal: any other key reads straight from the
article. -/
theorem failSignal_get_other (article : Dict) (msg ts k : String)
    (h1 : k ≠ "relevant") (h2 : k ≠ "error") (h3 : k ≠ "scanned_at") :
    dictGet (dictMerge article
      [("relevant", Json.bool false), ("error", Json.str msg),
       ("scanned_at", Json.str ts)]) k = dictGet article k := by
  have e3 : dictMerge article
      [("relevant", Json.bool false), ("error", Json.str msg),
       ("scanned_at", Json.str ts)] =
      dictInsert (dictInsert (dictInsert article "relevant" (Json.bool false))
        "error" (Json.str msg)) "scanned_at" (Json.str ts) := rfl
  rw [e3, dictGet_insert_other _ _ (fun he => h3 he.symm),
      dictGet_insert_other _ _ (fun he => h2 he.symm),
      dictGet_insert_other _ _ (fun he => h1 he.symm)]

theorem isRelevant_iff (c : Dict) :
    isRelevant c = true ↔ dictGet c "relevant" = some (.bool true) := by
  unfold isRelevant
  cases hg : dictGet c "relevant" with
  | none => simp
  | some j =>
    cases j with
    | bool b => cases b <;> simp
    | null => simp
    | num m e => simp
    | nan => simp
    | infinity b => simp
    | str s => simp
    | arr xs => simp
    | obj fs => simp

/-! ### Harvester lemmas -/

theorem fetchStep_eq (articles : List Dict) (sf : String × FeedResult) :
    fetchStep articles sf = articles ++ fetchStep [] sf := by
  cases h : sf.2 <;> simp [fetchStep, h]

theorem foldl_fetchStep (feeds : List (String × FeedResult)) :
    ∀ init : List Dict, feeds.foldl fetchStep init = init ++ feeds.foldl fetchStep [] := by
  induction feeds with
  | nil => intro init; simp
  | cons sf rest ih =>
    intro init
    rw [List.foldl_cons, List.foldl_cons, ih (fetchStep init sf),
        ih (fetchStep [] sf), fetchStep_eq init sf, List.append_assoc]

theorem fetch_articles_append (a b : List (String × FeedResult)) :
    fetch_articles (a ++ b) = fetch_articles a ++ fetch_articles b := by
  unfold fetch_articles
  rw [List.foldl_append, foldl_fetchStep b (a.foldl fetchStep [])]

theorem fetch_articles_failed (name err) :
    fetch_articles [(name, FeedResult.failed err)] = [] := by
  simp [fetch_articles, fetchStep]

@[simp]
theorem except_bind_ok {ε α β : Type} (a : α) (f : α → Except ε β) :
    (Except.ok a >>= f) = f a := rfl

@[simp]
theorem except_bind_error {ε α β : Type} (e : ε) (f : α → Except ε β) :
    ((Except.error e : Except ε α) >>= f) = (Except.error e : Except ε β) := rfl

theorem filterNew_mem {us : List Json} {signals l : List Dict}
    (h : filterNew us signals = .ok l) : ∀ s ∈ l, s ∈ signals := by
  induction signals generalizing l with
  | nil =>
    intro t ht
    simp only [filterNew, Except.ok.injEq] at h
    rw [← h] at ht
    simp at ht
  | cons s rest ih =>
    intro t ht
    cases hu : pySubscript (.obj s) "url" with
    | error e => simp [filterNew, hu] at h
    | ok u =>
      cases hrest : filterNew us rest with
      | error e => simp [filterNew, hu, hrest] at h
      | ok tail =>
        have hl : (if us.contains u then tail else s :: tail) = l := by
          have h2 := h
          simp only [filterNew, hu, hrest, except_bind_ok, Except.ok.injEq] at h2
          exact h2
        rw [← hl] at ht
        by_cases hc : us.contains u = true
        · rw [if_pos hc] at ht
          exact List.mem_cons_of_mem s (ih hrest t ht)
        · rw [if_neg hc] at ht
          rcases List.mem_cons.mp ht with h1 | h2
          · rw [h1]; exact List.mem_cons_self s rest
          · exact List.mem_cons_of_mem s (ih hrest t h2)

theorem save_newSignals {doc : Option String} {signals : List Dict} {r : SaveResult}
    (h : save doc signals = .ok r) : ∀ s ∈ r.newSignals, s ∈ signals := by
  simp only [save] at h
  cases h1 : pyIter (loadExisting doc) with
  | error e =>
    rw [h1] at h
    simp only [except_bind_error] at h
    exact Except.noConfusion h
  | ok elems =>
    rw [h1] at h
    simp only [except_bind_ok] at h
    cases h2 : urlSet elems with
    | error e =>
      rw [h2] at h
      simp only [except_bind_error] at h
      exact Except.noConfusion h
    | ok us =>
      rw [h2] at h
      simp only [except_bind_ok] at h
      cases h3 : filterNew us signals with
      | error e =>
        rw [h3] at h
        simp only [except_bind_error] at h
        exact Except.noConfusion h
      | ok l =>
        rw [h3] at h
        simp only [except_bind_ok] at h
        cases h4 : pyAddList (loadExisting doc) (l.map Json.obj) with
        | error e =>
          rw [h4] at h
          simp only [except_bind_error] at h
          exact Except.noConfusion h
        | ok combined =>
          rw [h4] at h
          simp only [except_bind_ok, Except.ok.injEq] at h
          rw [← h]
          exact filterNew_mem h3


/-! ### Merge lemmas -/

/-- A url present among the incoming urls is present among the urls of
the merged collection. -/
theorem merge_mem_urls {e i : List Signal} (s : Signal)
    (hs : s.url ∈ i.map Signal.url) :
    s.url ∈ (merge e i).map Signal.url := by
  unfold merge
  rw [List.map_append, List.mem_append]
  by_cases he : s.url ∈ e.map Signal.url
  · exact Or.inl he
  · obtain ⟨t, ht, htu⟩ := List.mem_map.mp hs
    refine Or.inr ?_
    rw [← htu]
    apply List.mem_map_of_mem
    rw [List.mem_filter]
    refine ⟨ht, ?_⟩
    simp [htu, he]

/-- Merging a second batch whose urls are all already present changes
nothing. -/
theorem merge_absorb {e i : List Signal} (i2 : List Signal)
    (h : ∀ s ∈ i2, s.url ∈ i.map Signal.url) :
    merge (merge e i) i2 = merge e i := by
  have hnil :
      i2.filter (fun s => !((merge e i).map Signal.url).contains s.url) = [] := by
    rw [List.filter_eq_nil_iff]
    intro s hs
    have hmem := merge_mem_urls (e := e) s (h s hs)
    simp [hmem]
  calc merge (merge e i) i2
      = merge e i ++
          i2.filter (fun s => !((merge e i).map Signal.url).contains s.url) := rfl
    _ = merge e i ++ [] := by rw [hnil]
    _ = merge e i := List.append_nil _

/-! ### Pipeline lemmas -/

/-- Inversion of a successful run: what `main` reports as `stored` is
exactly the result of `save` on the relevance-filtered classifications. -/
theorem main_inv {apiKey : Option String} {feeds : List (String × FeedResult)}
    {responses : Nat → ApiOutcome} {doc : Option String} {ts : String} {r : RunReport}
    (h : main apiKey feeds responses doc ts = .ok r) :
    save doc (relevantOnly (classifyAll (fetch_articles feeds) responses ts)) = .ok r.stored := by
  simp only [main] at h
  by_cases hk : pyTruthy apiKey = true
  · rw [hk] at h
    simp only [Bool.not_true, Bool.false_eq_true, if_false] at h
    cases hs : save doc (relevantOnly (classifyAll (fetch_articles feeds) responses ts)) with
    | error e => rw [hs] at h; exact Except.noConfusion h
    | ok r2 =>
      rw [hs] at h
      simp only [Except.ok.injEq] at h
      rw [← h]
  · simp only [Bool.not_eq_true] at hk
    rw [hk] at h
    simp only [Bool.not_false, if_true] at h
    exact Except.noConfusion h

/-! ### The claims -/

/-- C1 (amended).  The persisted collection has pairwise-distinct url
values provided the urls of the existing store are pairwise distinct
and the urls of the incoming list are pairwise distinct.  The
qualification about a url repeated within one run's incoming list had
to be dropped: `save` dedups incoming signals only against the
previously stored urls, not against each other, so such repeats are
both persisted (see the counterexample). -/
theorem persisted_urls_distinct {existing incoming : List Signal}
    (h1 : (existing.map Signal.url).Nodup)
    (h2 : (incoming.map Signal.url).Nodup) :
    ((merge existing incoming).map Signal.url).Nodup := by
  unfold merge
  rw [List.map_append, List.nodup_append]
  refine ⟨h1, ((List.filter_sublist incoming).map Signal.url).nodup h2, ?_⟩
  intro a ha1 ha2
  obtain ⟨t, ht, rfl⟩ := List.mem_map.mp ha2
  rw [List.mem_filter] at ht
  have h3 : t.url ∉ List.map Signal.url existing := by simpa using ht.2
  exact h3 ha1

/-- C1 fails as stated: an incoming list that itself repeats a url is
persisted with both copies, both through the url-deduplicating core and
through `save` itself against an empty store. -/
theorem persisted_urls_distinct_cex :
    ¬ ((merge []
        [⟨"https://x/1", Json.null⟩, ⟨"https://x/1", Json.bool true⟩]).map Signal.url).Nodup ∧
    save none [[("url", Json.str "https://x/1")],
               [("url", Json.str "https://x/1"), ("note", Json.null)]] =
      .ok ⟨[Json.obj [("url", Json.str "https://x/1")],
            Json.obj [("url", Json.str "https://x/1"), ("note", Json.null)]],
           [[("url", Json.str "https://x/1")],
            [("url", Json.str "https://x/1"), ("note", Json.null)]], 2, 2⟩ := by
  exact ⟨by decide, rfl⟩

theorem persisted_urls_distinct_witness :
    (([⟨"https://a/1", Json.null⟩] : List Signal).map Signal.url).Nodup ∧
    (([⟨"https://a/1", Json.bool true⟩, ⟨"https://a/2", Json.null⟩] :
        List Signal).map Signal.url).Nodup ∧
    ((merge [⟨"https://a/1", Json.null⟩]
        [⟨"https://a/1", Json.bool true⟩, ⟨"https://a/2", Json.null⟩]).map Signal.url).Nodup :=
  ⟨by decide, by decide, persisted_urls_distinct (by decide) (by decide)⟩

/-- C2.  `merge` is exactly the specification's merge rule: the result
is `existing` (unchanged, as the prefix, in its original order)
followed by exactly those incoming signals whose url is absent from the
set of urls of `existing`, in their original relative order; an
existing entry is never overwritten by an incoming signal with the same
url. -/
theorem merge_matches_spec (existing incoming : List Signal) :
    merge existing incoming = mergeSpec existing incoming ∧
    (merge existing incoming).take existing.length = existing ∧
    (merge existing incoming).drop existing.length =
      incoming.filter (fun s => !(existing.map Signal.url).contains s.url) := by
  refine ⟨?_, List.take_left existing _, List.drop_left existing _⟩
  rw [show merge existing incoming = existing ++
        incoming.filter (fun s => !(existing.map Signal.url).contains s.url) from rfl,
      show mergeSpec existing incoming = existing ++
        incoming.filter (fun s => decide (s.url ∉ (existing.map Signal.url).toFinset)) from rfl]
  congr 1
  refine List.filter_congr ?_
  intro s _
  by_cases hm : s.url ∈ existing.map Signal.url
  · simp [hm, List.mem_toFinset]
  · simp [hm, List.mem_toFinset]

/-- C3.  Re-running the persistence step is absorbed: merging the same
incoming list again changes nothing, and more generally any rerun batch
whose urls all occur among the first batch's urls — in particular a
rerun whose signal for an already-stored url carries different
content — adds zero signals and leaves the size unchanged. -/
theorem merge_idempotent (existing incoming rerun : List Signal)
    (h : ∀ s ∈ rerun, s.url ∈ incoming.map Signal.url) :
    merge (merge existing incoming) incoming = merge existing incoming ∧
    merge (merge existing incoming) rerun = merge existing incoming ∧
    (merge (merge existing incoming) rerun).length = (merge existing incoming).length := by
  have h2 := merge_absorb (e := existing) (i := incoming) rerun h
  exact ⟨merge_absorb incoming (fun s hs => List.mem_map_of_mem Signal.url hs),
         h2, by rw [h2]⟩

theorem merge_idempotent_witness :
    (∀ s ∈ ([⟨"https://x/1", Json.str "changed content"⟩] : List Signal),
      s.url ∈ ([⟨"https://x/1", Json.null⟩] : List Signal).map Signal.url) ∧
    merge (merge [] [⟨"https://x/1", Json.null⟩]) [⟨"https://x/1", Json.str "changed content"⟩] =
      merge [] [⟨"https://x/1", Json.null⟩] ∧
    (merge (merge [] [⟨"https://x/1", Json.null⟩])
        [⟨"https://x/1", Json.str "changed content"⟩]).length =
      (merge [] [⟨"https://x/1", Json.null⟩]).length :=
  ⟨by decide,
   (merge_idempotent [] [⟨"https://x/1", Json.null⟩]
     [⟨"https://x/1", Json.str "changed content"⟩] (by decide)).2.1,
   (merge_idempotent [] [⟨"https://x/1", Json.null⟩]
     [⟨"https://x/1", Json.str "changed content"⟩] (by decide)).2.2⟩

/-- C4 (amended).  When the stripped response text fails JSON decoding
— malformed JSON or JSON wrapped in extra text — `classify` returns the
failure signal: `relevant = false`, `error = "json_parse_error"`,
`scanned_at` stamped, and no classification fields populated.  The
"unexpected field types" disjunct of the claim had to be dropped: the
code only catches `json.JSONDecodeError`, so a decodable response of
unexpected field types is merged silently (see the counterexample). -/
theorem classify_json_parse_error (article : Dict) (raw ts : String)
    (hp : Json.parse (pyStrip raw) = none)
    (hcat : dictGet article "primary_category" = none)
    (hsec : dictGet article "secondary_categories" = none)
    (hconf : dictGet article "confidence" = none) :
    dictGet (classify article (.success raw) ts) "relevant" = some (.bool false) ∧
    dictGet (classify article (.success raw) ts) "error" = some (.str "json_parse_error") ∧
    dictGet (classify article (.success raw) ts) "scanned_at" = some (.str ts) ∧
    dictGet (classify article (.success raw) ts) "primary_category" = none ∧
    dictGet (classify article (.success raw) ts) "secondary_categories" = none ∧
    dictGet (classify article (.success raw) ts) "confidence" = none := by
  rw [classify_parse_failure article ts hp]
  obtain ⟨g1, g2, g3⟩ := failSignal_get article "json_parse_error" ts
  refine ⟨g1, g2, g3, ?_, ?_, ?_⟩
  · rw [failSignal_get_other article _ _ _ (by decide) (by decide) (by decide), hcat]
  · rw [failSignal_get_other article _ _ _ (by decide) (by decide) (by decide), hsec]
  · rw [failSignal_get_other article _ _ _ (by decide) (by decide) (by decide), hconf]

/-- C4 fails as stated: a response that is valid JSON of unexpected
field types — here `relevant` bound to the string `"yes"` — is merged
into the signal without any error marker, rather than producing the
`"json_parse_error"` failure signal the claim requires. -/
theorem classify_json_parse_error_cex :
    dictGet (classify (toArticle "feed" ⟨some "T", some "S", some "https://x/1", some "P"⟩)
        (.success "\x7b\"relevant\": \"yes\"\x7d") "TS") "error" = none ∧
    dictGet (classify (toArticle "feed" ⟨some "T", some "S", some "https://x/1", some "P"⟩)
        (.success "\x7b\"relevant\": \"yes\"\x7d") "TS") "relevant" = some (Json.str "yes") := by
  exact ⟨by decide, by decide⟩

theorem classify_json_parse_error_witness :
    Json.parse (pyStrip "not json") = none ∧
    dictGet (toArticle "feed" ⟨some "T", some "S", some "https://x/1", some "P"⟩)
      "primary_category" = none ∧
    dictGet (classify (toArticle "feed" ⟨some "T", some "S", some "https://x/1", some "P"⟩)
        (.success "not json") "TS") "relevant" = some (Json.bool false) ∧
    dictGet (classify (toArticle "feed" ⟨some "T", some "S", some "https://x/1", some "P"⟩)
        (.success "not json") "TS") "error" = some (Json.str "json_parse_error") :=
  ⟨by decide, by decide,
   (classify_json_parse_error (toArticle "feed" ⟨some "T", some "S", some "https://x/1", some "P"⟩)
      "not json" "TS" (by decide) (by decide) (by decide) (by decide)).1,
   (classify_json_parse_error (toArticle "feed" ⟨some "T", some "S", some "https://x/1", some "P"⟩)
      "not json" "TS" (by decide) (by decide) (by decide) (by decide)).2.1⟩

/-- C6.  When exactly one configured feed fails — every other feed
parses — the failed feed contributes zero candidate items and the
harvest equals the concatenation of the other feeds' item lists,
unaffected, in feed order; the failure never aborts the rest of the
harvest. -/
theorem harvest_tolerates_feed_failure (before after : List (String × FeedResult))
    (name err : String)
    (h : ∀ f ∈ before ++ after, ∃ es, f.2 = FeedResult.parsed es) :
    fetch_articles [(name, FeedResult.failed err)] = [] ∧
    fetch_articles (before ++ [(name, FeedResult.failed err)] ++ after) =
      fetch_articles before ++ fetch_articles after := by
  refine ⟨fetch_articles_failed name err, ?_⟩
  rw [List.append_assoc, fetch_articles_append, fetch_articles_append,
      fetch_articles_failed]
  simp

theorem harvest_tolerates_feed_failure_witness :
    (∀ f ∈ ([("a", FeedResult.parsed [⟨some "A", some "S1", some "https://a/1", some "D1"⟩])] ++
            [("b", FeedResult.parsed [⟨some "B", some "S2", some "https://b/1", some "D2"⟩])] :
            List (String × FeedResult)),
      ∃ es, f.2 = FeedResult.parsed es) ∧
    fetch_articles
        ([("a", FeedResult.parsed [⟨some "A", some "S1", some "https://a/1", some "D1"⟩])] ++
         [("dead", FeedResult.failed "timeout")] ++
         [("b", FeedResult.parsed [⟨some "B", some "S2", some "https://b/1", some "D2"⟩])]) =
      fetch_articles [("a", FeedResult.parsed [⟨some "A", some "S1", some "https://a/1", some "D1"⟩])] ++
      fetch_articles [("b", FeedResult.parsed [⟨some "B", some "S2", some "https://b/1", some "D2"⟩])] :=
  ⟨by
    intro f hf
    simp only [List.cons_append, List.nil_append, List.mem_cons,
      List.not_mem_nil, or_false] at hf
    rcases hf with rfl | rfl
    · exact ⟨_, rfl⟩
    · exact ⟨_, rfl⟩,
   (harvest_tolerates_feed_failure
      [("a", FeedResult.parsed [⟨some "A", some "S1", some "https://a/1", some "D1"⟩])]
      [("b", FeedResult.parsed [⟨some "B", some "S2", some "https://b/1", some "D2"⟩])]
      "dead" "timeout"
      (by
        intro f hf
        simp only [List.cons_append, List.nil_append, List.mem_cons,
          List.not_mem_nil, or_false] at hf
        rcases hf with rfl | rfl
        · exact ⟨_, rfl⟩
        · exact ⟨_, rfl⟩)).2⟩

/-- C8 (amended).  The classifier validates nothing: it passes the
response's `primary_category` and `secondary_categories` through to the
signal unchanged.  The claimed invariant therefore holds for exactly
those signals whose response already satisfies it: when the parsed
response's `primary_category` is one of the five enum values and its
`secondary_categories` does not contain it, the produced signal's
fields satisfy the invariant.  The unconditional claim fails (see the
counterexample): nothing in the code rejects other responses. -/
theorem category_passthrough (article : Dict) (raw ts : String) (fields : Dict)
    (p : String) (secs : List Json)
    (hp : Json.parse (pyStrip raw) = some (.obj fields))
    (hnd : (fields.map Prod.fst).Nodup)
    (h1 : dictGet fields "primary_category" = some (.str p))
    (h2 : p ∈ CATEGORY_ENUM)
    (h3 : dictGet fields "secondary_categories" = some (.arr secs))
    (h4 : Json.str p ∉ secs) :
    dictGet (classify article (.success raw) ts) "primary_category" = some (.str p) ∧
    p ∈ CATEGORY_ENUM ∧
    dictGet (classify article (.success raw) ts) "secondary_categories" = some (.arr secs) ∧
    Json.str p ∉ secs := by
  rw [classify_success article ts hp,
      show dictMerge (dictMerge article fields) [("scanned_at", Json.str ts)] =
        dictInsert (dictMerge article fields) "scanned_at" (Json.str ts) from rfl]
  refine ⟨?_, h2, ?_, h4⟩
  · rw [dictGet_insert_other _ _ (by decide)]
    exact dictGet_merge_nodup article hnd h1
  · rw [dictGet_insert_other _ _ (by decide)]
    exact dictGet_merge_nodup article hnd h3

/-- C8 fails as stated: a response whose `primary_category` is outside
the five-value enum and repeated inside `secondary_categories` is
passed through unvalidated, yielding a signal (accepted by the
relevance filter) that violates both halves of the invariant. -/
theorem category_passthrough_cex :
    isRelevant (classify (toArticle "feed" ⟨some "T", some "S", some "https://x/1", some "P"⟩)
      (.success "\x7b\"relevant\": true, \"primary_category\": \"SOMETHING_ELSE\", \"secondary_categories\": [\"SOMETHING_ELSE\"]\x7d")
      "TS") = true ∧
    dictGet (classify (toArticle "feed" ⟨some "T", some "S", some "https://x/1", some "P"⟩)
      (.success "\x7b\"relevant\": true, \"primary_category\": \"SOMETHING_ELSE\", \"secondary_categories\": [\"SOMETHING_ELSE\"]\x7d")
      "TS") "primary_category" = some (Json.str "SOMETHING_ELSE") ∧
    "SOMETHING_ELSE" ∉ CATEGORY_ENUM ∧
    dictGet (classify (toArticle "feed" ⟨some "T", some "S", some "https://x/1", some "P"⟩)
      (.success "\x7b\"relevant\": true, \"primary_category\": \"SOMETHING_ELSE\", \"secondary_categories\": [\"SOMETHING_ELSE\"]\x7d")
      "TS") "secondary_categories" = some (Json.arr [Json.str "SOMETHING_ELSE"]) := by
  exact ⟨by decide, by decide, by decide, by decide⟩

theorem category_passthrough_witness :
    Json.parse (pyStrip "\x7b\"relevant\": true, \"primary_category\": \"WEAKENS\", \"secondary_categories\": [\"COLLAPSE\"]\x7d") =
      some (.obj [("relevant", Json.bool true), ("primary_category", Json.str "WEAKENS"),
                  ("secondary_categories", Json.arr [Json.str "COLLAPSE"])]) ∧
    "WEAKENS" ∈ CATEGORY_ENUM ∧
    dictGet (classify (toArticle "feed" ⟨some "T", some "S", some "https://x/1", some "P"⟩)
      (.success "\x7b\"relevant\": true, \"primary_category\": \"WEAKENS\", \"secondary_categories\": [\"COLLAPSE\"]\x7d")
      "TS") "primary_category" = some (Json.str "WEAKENS") ∧
    dictGet (classify (toArticle "feed" ⟨some "T", some "S", some "https://x/1", some "P"⟩)
      (.success "\x7b\"relevant\": true, \"primary_category\": \"WEAKENS\", \"secondary_categories\": [\"COLLAPSE\"]\x7d")
      "TS") "secondary_categories" = some (Json.arr [Json.str "COLLAPSE"]) ∧
    Json.str "WEAKENS" ∉ [Json.str "COLLAPSE"] :=
  ⟨by decide, by decide,
   (category_passthrough (toArticle "feed" ⟨some "T", some "S", some "https://x/1", some "P"⟩)
      "\x7b\"relevant\": true, \"primary_category\": \"WEAKENS\", \"secondary_categories\": [\"COLLAPSE\"]\x7d"
      "TS"
      [("relevant", Json.bool true), ("primary_category", Json.str "WEAKENS"),
       ("secondary_categories", Json.arr [Json.str "COLLAPSE"])]
      "WEAKENS" [Json.str "COLLAPSE"]
      (by decide) (by decide) (by decide) (by decide) (by decide) (by decide)).1,
   (category_passthrough (toArticle "feed" ⟨some "T", some "S", some "https://x/1", some "P"⟩)
      "\x7b\"relevant\": true, \"primary_category\": \"WEAKENS\", \"secondary_categories\": [\"COLLAPSE\"]\x7d"
      "TS"
      [("relevant", Json.bool true), ("primary_category", Json.str "WEAKENS"),
       ("secondary_categories", Json.arr [Json.str "COLLAPSE"])]
      "WEAKENS" [Json.str "COLLAPSE"]
      (by decide) (by decide) (by decide) (by decide) (by decide) (by decide)).2.2.1,
   by decide⟩

/-- C9.  Every signal handed to the persistence step has `relevant`
strictly equal to the boolean `true`: the orchestrator's filter admits
exactly those classifications, and every signal `save` adds to the
store comes from that filtered list, so no failure signal — one with an
`error` field and `relevant = false` — is ever written. -/
theorem persisted_signals_relevant (apiKey : Option String)
    (feeds : List (String × FeedResult)) (responses : Nat → ApiOutcome)
    (doc : Option String) (ts : String) (r : RunReport)
    (h : main apiKey feeds responses doc ts = .ok r) :
    (∀ s ∈ relevantOnly (classifyAll (fetch_articles feeds) responses ts),
        dictGet s "relevant" = some (.bool true)) ∧
    (∀ s ∈ r.stored.newSignals,
        dictGet s "relevant" = some (.bool true) ∧
        ¬(dictGet s "relevant" = some (.bool false) ∧ (dictGet s "error").isSome = true)) := by
  have hall : ∀ s ∈ relevantOnly (classifyAll (fetch_articles feeds) responses ts),
      dictGet s "relevant" = some (.bool true) := by
    intro s hs
    simp only [relevantOnly] at hs
    exact (isRelevant_iff s).mp (List.mem_filter.mp hs).2
  refine ⟨hall, ?_⟩
  intro s hs
  have hrel := hall s (save_newSignals (main_inv h) s hs)
  refine ⟨hrel, fun hcon => ?_⟩
  rw [hrel] at hcon
  simp at hcon

set_option maxRecDepth 8192 in
theorem persisted_signals_relevant_witness :
    dictGet
      [("source", Json.str "f"), ("title", Json.str "t"), ("summary", Json.str "s"),
       ("url", Json.str "https://x/1"), ("published", Json.str "p"),
       ("relevant", Json.bool true), ("primary_category", Json.str "WEAKENS"),
       ("scanned_at", Json.str "T")] "relevant" = some (Json.bool true) :=
  (persisted_signals_relevant (some "sk")
    [("f", FeedResult.parsed [⟨some "t", some "s", some "https://x/1", some "p"⟩])]
    (fun _ => .success "\x7b\"relevant\": true, \"primary_category\": \"WEAKENS\"\x7d") none "T"
    ⟨1, 1,
     ⟨[Json.obj
        [("source", Json.str "f"), ("title", Json.str "t"), ("summary", Json.str "s"),
         ("url", Json.str "https://x/1"), ("published", Json.str "p"),
         ("relevant", Json.bool true), ("primary_category", Json.str "WEAKENS"),
         ("scanned_at", Json.str "T")]],
      [[("source", Json.str "f"), ("title", Json.str "t"), ("summary", Json.str "s"),
        ("url", Json.str "https://x/1"), ("published", Json.str "p"),
        ("relevant", Json.bool true), ("primary_category", Json.str "WEAKENS"),
        ("scanned_at", Json.str "T")]], 1, 1⟩⟩
    (by decide)).1
    [("source", Json.str "f"), ("title", Json.str "t"), ("summary", Json.str "s"),
     ("url", Json.str "https://x/1"), ("published", Json.str "p"),
     ("relevant", Json.bool true), ("primary_category", Json.str "WEAKENS"),
     ("scanned_at", Json.str "T")]
    (by decide)

/-- C10.  On parse success the response's fields are merged over the
candidate item with the response taking precedence: any key the
response binds (other than the orchestrator-stamped `scanned_at`) reads
back the response's value in the produced signal, whatever the item
held there — including `url`, the dedup identity key. -/
theorem response_overrides_item (article : Dict) (raw ts k : String)
    (fields : Dict) (v : Json)
    (hp : Json.parse (pyStrip raw) = some (.obj fields))
    (hnd : (fields.map Prod.fst).Nodup)
    (hk : dictGet fields k = some v)
    (hks : k ≠ "scanned_at") :
    dictGet (classify article (.success raw) ts) k = some v := by
  rw [classify_success article ts hp,
      show dictMerge (dictMerge article fields) [("scanned_at", Json.str ts)] =
        dictInsert (dictMerge article fields) "scanned_at" (Json.str ts) from rfl,
      dictGet_insert_other _ _ (fun he => hks he.symm)]
  exact dictGet_merge_nodup article hnd hk

theorem response_overrides_item_witness :
    dictGet (toArticle "feed" ⟨some "T", some "S", some "https://x/1", some "P"⟩) "url" =
      some (Json.str "https://x/1") ∧
    Json.parse (pyStrip "\x7b\"relevant\": true, \"url\": \"https://y/2\"\x7d") =
      some (.obj [("relevant", Json.bool true), ("url", Json.str "https://y/2")]) ∧
    dictGet (classify (toArticle "feed" ⟨some "T", some "S", some "https://x/1", some "P"⟩)
      (.success "\x7b\"relevant\": true, \"url\": \"https://y/2\"\x7d") "TS") "url" =
      some (Json.str "https://y/2") :=
  ⟨by decide, by decide,
   response_overrides_item (toArticle "feed" ⟨some "T", some "S", some "https://x/1", some "P"⟩)
     "\x7b\"relevant\": true, \"url\": \"https://y/2\"\x7d" "TS" "url"
     [("relevant", Json.bool true), ("url", Json.str "https://y/2")] (Json.str "https://y/2")
     (by decide) (by decide) (by decide) (by decide)⟩

end Scanner
